import Mathlib

/-!
Shallow embedding of the PRISM frontend's authentication middleware and
data-fetching controllers, with theorems checking the specification's
claims against the code.
-/

namespace Prism

/-! ## JWT / middleware model

The middleware reads two cookies (`prism-access`, `prism-refresh`) and
branches only on (a) JS truthiness of the cookie value and (b) the result
of `jwtDecode<{ exp: number }>(tok)?.exp`.  We model a cookie as
`Option Jwt`: `none` stands for a missing (or empty, hence falsy) cookie,
and a present cookie either fails to decode (`jwtDecode` throws) or yields
a payload whose `exp` claim may be absent. -/

inductive Jwt where
  | malformed : Jwt
  | payload (exp : Option Nat) : Jwt
deriving DecidableEq, Repr

/-- The routes the middleware redirects to. -/
inductive Route where
  | login : Route
  | logout : Route
  | refresh : Route
deriving DecidableEq, Repr

/-- Outcome of the middleware: `NextResponse.next()` or a redirect. -/
inductive MwResult where
  | next : MwResult
  | redirect (r : Route) : MwResult
deriving DecidableEq, Repr

/-- The test `access_exp && currentTime > access_exp` on a JS
`number | undefined`: truthy (defined and nonzero) and strictly below
`currentTime`. -/
def expiredTest (currentTime : Nat) (e : Option Nat) : Bool :=
  match e with
  | none => false
  | some v => v != 0 && currentTime > v

/-- The test `refresh_exp && currentTime < refresh_exp`. -/
def validTest (currentTime : Nat) (e : Option Nat) : Bool :=
  match e with
  | none => false
  | some v => v != 0 && currentTime < v

/-- The middleware of the first revision (the one whose expired-session
fallback is `/login`), translated branch for branch. -/
def middleware_v2 (currentTime : Nat) (access refresh : Option Jwt) :
    MwResult :=
  -- if (!access && !refresh) redirect /login
  if access = none ∧ refresh = none then .redirect .login
  else
    -- if (access) { try { access_exp = jwtDecode(access)?.exp } catch { redirect /logout } }
    match access with
    | some .malformed => .redirect .logout
    | _ =>
      let access_exp : Option Nat :=
        match access with
        | some (.payload e) => e
        | _ => none
      -- if (access_exp && currentTime > access_exp)
      if expiredTest currentTime access_exp then
        match refresh with
        | none => .redirect .login
        | some .malformed => .redirect .logout
        | some (.payload refresh_exp) =>
          -- if (refresh_exp && currentTime < refresh_exp) redirect /refresh
          if validTest currentTime refresh_exp then .redirect .refresh
          else .redirect .login
      else .next

/-- The middleware of the second revision (the one whose fallbacks are
`/logout`).  In this revision the `try` blocks declare fresh `const`
bindings `access_exp` / `refresh_exp` that shadow the outer `let`
variables, so the outer variables are never assigned and stay
`undefined`; the translation keeps that behaviour. -/
def middleware_v3 (currentTime : Nat) (access refresh : Option Jwt) :
    MwResult :=
  -- if (!access) redirect /logout
  match access with
  | none => .redirect .logout
  | some a =>
    -- let access_exp, refresh_exp : undefined (never reassigned: the
    -- decodes below bind shadowing consts inside the try blocks)
    let access_exp : Option Nat := none
    let refresh_exp : Option Nat := none
    match a with
    | .malformed => .redirect .logout
    | .payload _ =>
      -- if (access_exp && currentTime > access_exp)  (dead: access_exp is undefined)
      if expiredTest currentTime access_exp then
        match refresh with
        | none => .redirect .logout
        | some .malformed => .redirect .logout
        | some (.payload _) =>
          if validTest currentTime refresh_exp then .redirect .refresh
          else .redirect .logout
      else .next

/-! ### The four-case branch table claimed for the middleware -/

/-- The spec's four-case branch table, stated as a relation between the
request's decoded cookies and the middleware outcome: both tokens missing
redirects to `/login`; a decodable access token whose `exp` is not in the
past continues; an expired access token with a decodable unexpired refresh
token redirects to `/refresh`; both expired redirects to `/login`. -/
def fourCaseTable (now : Nat) (access refresh : Option Jwt)
    (out : MwResult) : Prop :=
  (access = none ∧ refresh = none ∧ out = .redirect .login) ∨
  (∃ e, access = some (.payload (some e)) ∧ ¬ e < now ∧ out = .next) ∨
  (∃ e f, access = some (.payload (some e)) ∧ e < now ∧
    refresh = some (.payload (some f)) ∧ now < f ∧
    out = .redirect .refresh) ∨
  (∃ e f, access = some (.payload (some e)) ∧ e < now ∧
    refresh = some (.payload (some f)) ∧ f < now ∧
    out = .redirect .login)

/-- The full branch table actually implemented by `middleware_v2`: the
spec's four cases extended with the cases the code distinguishes (a
missing access cookie alongside a present refresh cookie continues; an
undecodable token redirects to `/logout`; a zero or absent `exp` claim is
falsy, hence treated as unexpired; a refresh `exp` equal to `now` or
falsy falls back to `/login`). -/
def amendedTable (now : Nat) (access refresh : Option Jwt)
    (out : MwResult) : Prop :=
  (access = none ∧ refresh = none ∧ out = .redirect .login) ∨
  (access = none ∧ refresh ≠ none ∧ out = .next) ∨
  (access = some .malformed ∧ refresh ≠ none ∧ out = .redirect .logout) ∨
  (access = some .malformed ∧ refresh = none ∧ out = .redirect .logout) ∨
  (∃ e, access = some (.payload e) ∧ expiredTest now e = false ∧
    out = .next) ∨
  (∃ e, access = some (.payload e) ∧ expiredTest now e = true ∧
    ((refresh = none ∧ out = .redirect .login) ∨
     (refresh = some .malformed ∧ out = .redirect .logout) ∨
     (∃ f, refresh = some (.payload f) ∧ validTest now f = true ∧
       out = .redirect .refresh) ∨
     (∃ f, refresh = some (.payload f) ∧ validTest now f = false ∧
       out = .redirect .login)))

end Prism

namespace Prism

/-- C1: the spec's four-case branch table does not cover every request:
with the access cookie missing but a decodable refresh cookie present
(here `exp = 200`, `now = 100`), the middleware continues with
`NextResponse.next()`, an outcome outside all four cases. -/
theorem c1_fourCaseTable_counterexample :
    middleware_v2 100 none (some (.payload (some 200))) = .next ∧
    ¬ fourCaseTable 100 none (some (.payload (some 200)))
        (middleware_v2 100 none (some (.payload (some 200)))) := by
  refine ⟨rfl, ?_⟩
  intro h
  rcases h with ⟨_, h, _⟩ | ⟨e, h, _⟩ | ⟨e, f, h, _⟩ | ⟨e, f, h, _⟩ <;>
    simp_all

/-- C1 (amended): the outcome of the first middleware revision is fully
determined by the branch table extending the spec's four cases with the
cases the code distinguishes: access cookie missing but refresh present
continues; an undecodable token redirects to `/logout`; an access token
whose `exp` is falsy (absent or `0`) or not strictly below `now` is
unexpired and continues; an expired access token redirects to `/refresh`
when the refresh token decodes with a truthy `exp` strictly above `now`
and otherwise to `/login` (`/logout` if the refresh token fails to
decode).  In particular every redirect target is one of
`/login`, `/logout`, `/refresh`. -/
theorem c1_middleware_v2_table (now : Nat) (access refresh : Option Jwt) :
    amendedTable now access refresh (middleware_v2 now access refresh) := by
  unfold amendedTable middleware_v2
  rcases access with _ | a
  · rcases refresh with _ | r
    · simp
    · simp [expiredTest]
  · rcases a with _ | e
    · rcases refresh with _ | r <;> simp
    · by_cases hexp : expiredTest now e
      · rcases refresh with _ | r
        · simp [hexp]
        · rcases r with _ | f
          · simp [hexp]
          · by_cases hval : validTest now f <;> simp [hexp, hval]
      · simp [hexp]

/-- C2: on a request whose access and refresh cookies both decode with
`exp = 1` at `now = 100` (both expired), the first revision redirects to
`/login` as the spec says, but the second revision returns
`NextResponse.next()` instead of redirecting to `/logout`: its `try`
blocks bind shadowing `const`s, so the outer `access_exp` stays
`undefined` and the expired branch is unreachable. -/
theorem c2_revisions_at_expired_pair :
    middleware_v2 100 (some (.payload (some 1))) (some (.payload (some 1)))
      = .redirect .login ∧
    middleware_v3 100 (some (.payload (some 1))) (some (.payload (some 1)))
      = .next := by
  exact ⟨rfl, rfl⟩

/-- C4: requests carrying an expired access token do not always get a
redirect: the second revision returns `NextResponse.next()` on an access
token with `exp = 5` at `now = 1000` (the shadowed decode never assigns
the outer `access_exp`), and even the first revision returns
`NextResponse.next()` when the expired `exp` claim is `0`, since `0` is
falsy in the `access_exp && currentTime > access_exp` test. -/
theorem c4_expired_access_not_redirected :
    middleware_v3 1000 (some (.payload (some 5))) (some (.payload (some 999)))
      = .next ∧
    middleware_v2 1000 (some (.payload (some 0))) none = .next := by
  exact ⟨rfl, rfl⟩

/-- C8: an access token whose `exp` claim is not strictly in the past
(`now ≤ exp`) or is `0` (falsy in JS) never trips the
`access_exp && currentTime > access_exp` test, so the first middleware
revision continues with `NextResponse.next()` whatever the refresh
cookie holds. -/
theorem c8_unexpired_or_zero_exp_next (now e : Nat) (refresh : Option Jwt)
    (h : now ≤ e ∨ e = 0) :
    middleware_v2 now (some (.payload (some e))) refresh = .next := by
  unfold middleware_v2
  have hexp : expiredTest now (some e) = false := by
    rcases h with h | h
    · simp [expiredTest, Nat.not_lt.mpr h]
    · simp [expiredTest, h]
  simp [hexp]

/-- Witness for C8 at `now = 5`, `exp = 5`, refresh decodable with
`exp = 1`. -/
theorem c8_unexpired_or_zero_exp_next_witness :
    middleware_v2 5 (some (.payload (some 5))) (some (.payload (some 1)))
      = .next :=
  c8_unexpired_or_zero_exp_next 5 5 (some (.payload (some 1)))
    (Or.inl (by decide))

end Prism

namespace Prism

/-! ## `easyFetch` (utils/fetchWrapper)

`easyFetch(url, options)` issues the request, and on a 401 response posts
to the token refresh endpoint; if the refresh succeeds it re-issues the
original request once, otherwise it navigates to `/login` and throws.  We
model the network as an environment fixing the response to the first
request, whether the refresh call's response is `ok`, and the response to
the re-issued request, and we record the side effects as an event trace. -/

/-- The slice of a `fetch` `Response` the code inspects. -/
structure Response where
  status : Nat
  ok : Bool
deriving DecidableEq, Repr

/-- The slice of `RequestInit` that identifies a request. -/
structure RequestInit where
  method : String
deriving DecidableEq, Repr

/-- Responses the environment supplies to `easyFetch`'s three possible
network calls. -/
structure FetchEnv where
  first : Response
  refreshOk : Bool
  second : Response
deriving DecidableEq, Repr

/-- Observable side effects of `easyFetch`. -/
inductive FetchEvent where
  | fetch (url : String) (method : String) : FetchEvent
  | navigate (href : String) : FetchEvent
deriving DecidableEq, Repr

/-- What `easyFetch` produces: a response, or a thrown `Error`. -/
inductive EasyFetchResult where
  | success (r : Response) : EasyFetchResult
  | thrown (msg : String) : EasyFetchResult
deriving DecidableEq, Repr

/-- The refresh endpoint `easyFetch` posts to on a 401. -/
def refreshUrl : String := "http://localhost:8000/api/token/refresh"

/-- `easyFetch`, returning its result together with the trace of network
requests and navigations it performs. -/
def easyFetch (url : String) (options : RequestInit) (env : FetchEnv) :
    EasyFetchResult × List FetchEvent :=
  -- let res = await fetch(url, {...options, credentials: "include"})
  let res := env.first
  if res.status = 401 then
    -- const refreshRes = await fetch(refreshUrl, { method: "post", ... })
    if env.refreshOk then
      -- res = await fetch(url, {...options, ...}); return res
      (.success env.second,
        [.fetch url options.method, .fetch refreshUrl "post",
         .fetch url options.method])
    else
      -- window.location.href = "/login"; throw new Error("Unauthorized")
      (.thrown "Unauthorized",
        [.fetch url options.method, .fetch refreshUrl "post",
         .navigate "/login"])
  else
    (.success res, [.fetch url options.method])

/-- C3: `easyFetch` retries at most once.  A non-401 first response is
returned as is with a single request and no refresh call; a 401 first
response triggers exactly one POST to the refresh endpoint, after which a
successful refresh re-issues the original request exactly once and
returns that second response unconditionally (even another 401 causes no
further refresh), while a failed refresh navigates to `/login` and
throws without returning a response. -/
theorem c3_easyFetch_single_retry (url : String) (options : RequestInit)
    (env : FetchEnv) :
    (env.first.status ≠ 401 →
      easyFetch url options env =
        (.success env.first, [.fetch url options.method])) ∧
    (env.first.status = 401 → env.refreshOk = true →
      easyFetch url options env =
        (.success env.second,
          [.fetch url options.method, .fetch refreshUrl "post",
           .fetch url options.method])) ∧
    (env.first.status = 401 → env.refreshOk = false →
      easyFetch url options env =
        (.thrown "Unauthorized",
          [.fetch url options.method, .fetch refreshUrl "post",
           .navigate "/login"])) := by
  refine ⟨fun h => by simp [easyFetch, h], fun h hr => ?_, fun h hr => ?_⟩ <;>
    simp [easyFetch, h, hr]

/-- Witness for C3: a 401 first response with a succeeding refresh, where
the re-issued request again returns 401 and is still returned. -/
theorem c3_easyFetch_single_retry_witness :
    easyFetch "http://localhost:8000/api/x" ⟨"GET"⟩
        ⟨⟨401, false⟩, true, ⟨401, false⟩⟩ =
      (.success ⟨401, false⟩,
        [.fetch "http://localhost:8000/api/x" "GET",
         .fetch refreshUrl "post",
         .fetch "http://localhost:8000/api/x" "GET"]) :=
  (c3_easyFetch_single_retry "http://localhost:8000/api/x" ⟨"GET"⟩
      ⟨⟨401, false⟩, true, ⟨401, false⟩⟩).2.1 rfl rfl

end Prism

namespace Prism

/-! ## `GetSimilarityPairs` URL construction (controllers/similarityPairs.ts)

The controller builds a `URLSearchParams`, appending `course` first, then
`asid` (guarded by the JS truthiness of `assignment_id`, which is a plain
`number`), then the remaining optional parameters (each guarded by
`!== null && !== undefined`), and finally the unconditional
`ordering=-percentage`.  A `URLSearchParams` is modelled as the list of
appended key/value pairs in order; `null` and `undefined` arguments are
both modelled as `none`. -/

/-- One `if (v !== null && v !== undefined) params.append(name, v.toString())`
step. -/
def optParam (name : String) (v : Option Int) : List (String × String) :=
  match v with
  | none => []
  | some x => [(name, toString x)]

/-- `params.toString()`: the `k=v` pairs joined by `&` (the values here
are decimal numbers or `-percentage`, which URL-encode to themselves). -/
def paramsToString (ps : List (String × String)) : String :=
  String.intercalate "&" (ps.map fun p => p.1 ++ "=" ++ p.2)

/-- The query parameters appended by `GetSimilarityPairs`, in order. -/
def GetSimilarityPairs_params (assignment_id : Int)
    (course course1 course2 student1 student2 semester semester1 semester2
      page_size page : Option Int) : List (String × String) :=
  optParam "course" course
    ++ (if assignment_id ≠ 0 then [("asid", toString assignment_id)] else [])
    ++ optParam "course1" course1
    ++ optParam "course2" course2
    ++ optParam "student1" student1
    ++ optParam "student2" student2
    ++ optParam "semester" semester
    ++ optParam "semester1" semester1
    ++ optParam "semester2" semester2
    ++ optParam "page_size" page_size
    ++ optParam "page" page
    ++ [("ordering", "-percentage")]

/-- The URL `GetSimilarityPairs` passes to `easyFetch`. -/
def GetSimilarityPairs_url (assignment_id : Int)
    (course course1 course2 student1 student2 semester semester1 semester2
      page_size page : Option Int) : String :=
  "http://localhost:8000/api/cheating/submission-similarity-pairs/?"
    ++ paramsToString (GetSimilarityPairs_params assignment_id course course1
        course2 student1 student2 semester semester1 semester2 page_size page)

/-- C6: whatever the assignment id and whichever optional filters are
present, the `GetSimilarityPairs` request URL is the
`/api/cheating/submission-similarity-pairs/` endpoint followed by its
query string, and the query parameters always include
`ordering=-percentage` (appended unconditionally, as the last
parameter). -/
theorem c6_similarityPairs_ordering (assignment_id : Int)
    (course course1 course2 student1 student2 semester semester1 semester2
      page_size page : Option Int) :
    (∃ query,
      GetSimilarityPairs_url assignment_id course course1 course2 student1
          student2 semester semester1 semester2 page_size page =
        "http://localhost:8000/api/cheating/submission-similarity-pairs/?"
          ++ query) ∧
    ("ordering", "-percentage") ∈
      GetSimilarityPairs_params assignment_id course course1 course2
        student1 student2 semester semester1 semester2 page_size page ∧
    (GetSimilarityPairs_params assignment_id course course1 course2
        student1 student2 semester semester1 semester2 page_size
        page).getLast? = some ("ordering", "-percentage") := by
  refine ⟨⟨_, rfl⟩, ?_, ?_⟩
  · simp [GetSimilarityPairs_params]
  · simp [GetSimilarityPairs_params, List.getLast?_append]

/-- The keys of the built query string. -/
def GetSimilarityPairs_keys (assignment_id : Int)
    (course course1 course2 student1 student2 semester semester1 semester2
      page_size page : Option Int) : List String :=
  (GetSimilarityPairs_params assignment_id course course1 course2 student1
      student2 semester semester1 semester2 page_size page).map Prod.fst

/-- A key occurs in the pairs appended for one optional parameter exactly
when it is that parameter's name and the argument is present. -/
theorem mem_keys_optParam (n m : String) (v : Option Int) :
    (∃ x, (n, x) ∈ optParam m v) ↔ n = m ∧ v ≠ none := by
  cases v <;> simp [optParam]

/-- C10: a name is a key of the `GetSimilarityPairs` query exactly when
it is `asid` with `assignment_id` truthy (nonzero) — so `asid` is
silently dropped for `assignment_id = 0` — or one of the other optional
parameters with its argument neither `null` nor `undefined` (so `0` is
kept for those), or the unconditional `ordering`. -/
theorem c10_similarityPairs_param_presence (assignment_id : Int)
    (course course1 course2 student1 student2 semester semester1 semester2
      page_size page : Option Int) (n : String) :
    n ∈ GetSimilarityPairs_keys assignment_id course course1 course2
      student1 student2 semester semester1 semester2 page_size page ↔
    ((n = "course" ∧ course ≠ none) ∨ (n = "asid" ∧ assignment_id ≠ 0) ∨
     (n = "course1" ∧ course1 ≠ none) ∨ (n = "course2" ∧ course2 ≠ none) ∨
     (n = "student1" ∧ student1 ≠ none) ∨
     (n = "student2" ∧ student2 ≠ none) ∨
     (n = "semester" ∧ semester ≠ none) ∨
     (n = "semester1" ∧ semester1 ≠ none) ∨
     (n = "semester2" ∧ semester2 ≠ none) ∨
     (n = "page_size" ∧ page_size ≠ none) ∨
     (n = "page" ∧ page ≠ none) ∨ n = "ordering") := by
  by_cases h : assignment_id = 0 <;>
    simp [GetSimilarityPairs_keys, GetSimilarityPairs_params,
      List.mem_append, mem_keys_optParam, h, or_assoc]

end Prism

namespace Prism

/-! ## Controller outcomes (controllers/*.ts)

Each controller awaits `easyFetch` and `response.json()` (both of which
may throw) and then branches on `response.ok`.  We model one controller
call as a function of the fetch round's outcome: either a parsed response
— its `ok` flag, `status`, optional `data.detail` field, and payload — or
a thrown exception. -/

/-- The parsed response as the controllers see it. -/
structure ApiResponse (α : Type) where
  ok : Bool
  status : Nat
  detail : Option String
  data : α
deriving DecidableEq, Repr

/-- A fetch/parse round: a response, or a thrown exception. -/
inductive FetchOutcome (α : Type) where
  | ok (resp : ApiResponse α) : FetchOutcome α
  | raise : FetchOutcome α
deriving DecidableEq, Repr

/-- What a controller call surfaces to its caller. -/
inductive ControllerOutcome (α : Type) where
  | success (payload : α) : ControllerOutcome α
  | detailErr (detail : String) (status : Nat) : ControllerOutcome α
  | msgErr (message : String) : ControllerOutcome α
  | nullResult : ControllerOutcome α
  | raised : ControllerOutcome α
deriving DecidableEq, Repr

/-- Whether an outcome is a success or one of the two error shapes the
spec allows (`{detail, status}` or `{message}`). -/
def claimedErrorShape {α : Type} : ControllerOutcome α → Bool
  | .success _ => true
  | .detailErr _ _ => true
  | .msgErr _ => true
  | .nullResult => false
  | .raised => false

/-- `GetSemesters` (controllers/semesters.ts): try/catch around the
fetch; non-2xx becomes `{detail, status}` with a default detail, a thrown
exception becomes `{message}`. -/
def GetSemesters {α : Type} (uid : Nat) (r : FetchOutcome α) :
    ControllerOutcome α :=
  match r with
  | .raise => .msgErr "Something went wrong during fetch."
  | .ok resp =>
    if resp.ok then .success resp.data
    else .detailErr (resp.detail.getD "Failed to fetch semesters.") resp.status

/-- `GetSimilarityPlot` (controllers/graphs.ts): no try/catch; a non-ok
response returns `null`, otherwise the blob's object URL is returned. -/
def GetSimilarityPlot {α : Type} (id : Nat) (r : FetchOutcome α) :
    ControllerOutcome α :=
  match r with
  | .raise => .raised
  | .ok resp => if !resp.ok then .nullResult else .success resp.data

/-- `GetStudents` (controllers/courses.ts): no try/catch around the
fetch; non-2xx becomes `{detail, status}`, but a thrown exception
propagates to the caller. -/
def GetStudents_enrollments {α : Type} (course_instance_id : Nat)
    (no_paginate : Bool) (r : FetchOutcome α) : ControllerOutcome α :=
  match r with
  | .raise => .raised
  | .ok resp =>
    if resp.ok then .success resp.data
    else .detailErr (resp.detail.getD "Failed to fetch students.") resp.status

/-- C5: not every controller confines its errors to the `{detail,
status}` / `{message}` shapes: `GetSimilarityPlot` on a non-2xx response
(here a 404) surfaces `null`. -/
theorem c5_error_shapes_counterexample :
    claimedErrorShape
      (GetSimilarityPlot (α := Unit) 7 (.ok ⟨false, 404, none, ()⟩)) =
      false := by
  rfl

/-- C5 (amended): controllers whose body is wrapped in try/catch, such as
`GetSemesters`, surface every error as `{detail, status}` (with the
detail defaulting to a fixed message when the body has none) or as
`{message}`; but the plot controllers in graphs.ts surface a non-2xx
response as `null` and let exceptions propagate, and
`GetStudents` in courses.ts lets exceptions propagate. -/
theorem c5_error_shapes_amended {α β γ : Type} (uid id cid : Nat)
    (np : Bool) :
    (∀ r : FetchOutcome α, claimedErrorShape (GetSemesters uid r) = true) ∧
    (∀ (status : Nat) (d : α),
      GetSemesters uid (.ok ⟨false, status, none, d⟩) =
        .detailErr "Failed to fetch semesters." status) ∧
    (∀ (status : Nat) (s : String) (d : α),
      GetSemesters uid (.ok ⟨false, status, some s, d⟩) =
        .detailErr s status) ∧
    (GetSemesters (α := α) uid .raise =
      .msgErr "Something went wrong during fetch.") ∧
    (∀ (status : Nat) (detail : Option String) (d : β),
      GetSimilarityPlot id (.ok ⟨false, status, detail, d⟩) = .nullResult) ∧
    (GetSimilarityPlot (α := β) id .raise = .raised) ∧
    (GetStudents_enrollments (α := γ) cid np .raise = .raised) := by
  refine ⟨fun r => ?_, fun status d => rfl, fun status s d => rfl, rfl,
    fun status detail d => rfl, rfl, rfl⟩
  rcases r with resp | _
  · rcases resp with ⟨_ | _, status, detail, d⟩ <;> rfl
  · rfl

end Prism

namespace Prism

/-! ## `GetAssignments` revisions (controllers/assignments.ts)

The file holds three revisions of `GetAssignments`.  The first requests
`/api/assignment/assignments/?course_instance=` and returns
`data.results`; the second requests
`/api/assignment/assignments/get-assignments-by-course/?course=` and
returns `data`; the third builds the same by-course URL through a
`URLSearchParams` (with optional `page` and `page_size`) and also returns
`data`.  A paginated body is modelled by its `results` list and `count`. -/

/-- A DRF-style paginated response body. -/
structure PagedBody (α : Type) where
  results : List α
  count : Nat
deriving DecidableEq, Repr

/-- Revision 1's request URL. -/
def GetAssignments_v1_url (id : Int) : String :=
  "http://localhost:8000/api/assignment/assignments/?course_instance="
    ++ toString id

/-- Revision 1's value on a 2xx response: `data.results`. -/
def GetAssignments_v1_ok {α : Type} (data : PagedBody α) : List α :=
  data.results

/-- Revision 2's request URL. -/
def GetAssignments_v2_url (courseId : Int) : String :=
  "http://localhost:8000/api/assignment/assignments/get-assignments-by-course/?course="
    ++ toString courseId

/-- Revision 2's value on a 2xx response: the parsed body itself. -/
def GetAssignments_v2_ok {α : Type} (data : α) : α := data

/-- Revision 3's query parameters: `course` always, then optional `page`
and `page_size`. -/
def GetAssignments_v3_params (courseId : Int) (page page_size : Option Int) :
    List (String × String) :=
  [("course", toString courseId)]
    ++ optParam "page" page
    ++ optParam "page_size" page_size

/-- Revision 3's request URL. -/
def GetAssignments_v3_url (courseId : Int) (page page_size : Option Int) :
    String :=
  "http://localhost:8000/api/assignment/assignments/get-assignments-by-course/?"
    ++ paramsToString (GetAssignments_v3_params courseId page page_size)

/-- Revision 3's value on a 2xx response: the parsed body itself. -/
def GetAssignments_v3_ok {α : Type} (data : α) : α := data

/-- C7: the first revision of `GetAssignments` does not request the
by-course endpoint: at course id 5 its URL differs from the claimed one,
and on a 2xx response it returns the body's `results` field rather than
the parsed body itself. -/
theorem c7_getAssignments_counterexample :
    GetAssignments_v1_url 5 ≠
      "http://localhost:8000/api/assignment/assignments/get-assignments-by-course/?course=5" ∧
    GetAssignments_v1_ok (⟨[7, 9], 2⟩ : PagedBody Int) = [7, 9] := by
  exact ⟨by decide, rfl⟩

/-- C7 (amended): the second and third revisions of `GetAssignments`
request `/api/assignment/assignments/get-assignments-by-course/` with
`course={courseId}` (revision 3 through a `URLSearchParams` that may add
`page` and `page_size`) and return the parsed response body itself on a
2xx response; the first revision instead requests
`/api/assignment/assignments/?course_instance={id}` and returns the
body's `results` field. -/
theorem c7_getAssignments_amended (id : Int) (page page_size : Option Int)
    {α : Type} (data : α) (body : PagedBody α) :
    GetAssignments_v2_url id =
      "http://localhost:8000/api/assignment/assignments/get-assignments-by-course/?course="
        ++ toString id ∧
    GetAssignments_v2_ok data = data ∧
    (∃ query, GetAssignments_v3_url id page page_size =
      "http://localhost:8000/api/assignment/assignments/get-assignments-by-course/?"
        ++ query) ∧
    ("course", toString id) ∈ GetAssignments_v3_params id page page_size ∧
    GetAssignments_v3_ok data = data ∧
    GetAssignments_v1_url id =
      "http://localhost:8000/api/assignment/assignments/?course_instance="
        ++ toString id ∧
    GetAssignments_v1_ok body = body.results := by
  refine ⟨rfl, rfl, ⟨_, rfl⟩, ?_, rfl, rfl, rfl⟩
  simp [GetAssignments_v3_params]

end Prism

namespace Prism

/-! ## `GetSubmittedStudents` (controllers/students.ts)

On a 2xx response the controller walks `data.results`, keeping each
submission's `student` (when present) in a numeric-keyed object
`uniqueStudents` unless its `id` is already a key, and returns
`Object.values(uniqueStudents)`.  The object is modelled as the
association list of insertions in order; `Object.values` on integer-like
keys enumerates them in ascending key order, modelled with an insertion
sort on the keys. -/

/-- The slice of a student object the deduplication inspects, plus a
name so that distinct objects with equal ids exist. -/
structure Student where
  id : Nat
  name : String
deriving DecidableEq, Repr

/-- A submission, whose `student` field may be absent or null. -/
structure Submission where
  student : Option Student
deriving DecidableEq, Repr

/-- JS property read `uniqueStudents[k]` on the numeric-keyed object,
represented by the insertions in order: the first entry with key `k`. -/
def jsIndex (m : List (Nat × Student)) (k : Nat) : Option Student :=
  match m with
  | [] => none
  | (k', v) :: rest => if k = k' then some v else jsIndex rest k

/-- `if (!uniqueStudents[s.id]) uniqueStudents[s.id] = s` (the stored
values are objects, hence truthy). -/
def insertUnique (m : List (Nat × Student)) (s : Student) :
    List (Nat × Student) :=
  if (jsIndex m s.id).isSome then m else m ++ [(s.id, s)]

/-- One iteration of the `for (const submission of data.results)` loop. -/
def collectStep (m : List (Nat × Student)) (sub : Submission) :
    List (Nat × Student) :=
  match sub.student with
  | none => m
  | some s => insertUnique m s

/-- The whole loop, starting from the empty object. -/
def collectUnique (subs : List Submission) : List (Nat × Student) :=
  subs.foldl collectStep []

/-- `Object.values` on a numeric-keyed object: values in ascending key
order. -/
def jsObjectValues (m : List (Nat × Student)) : List Student :=
  (List.insertionSort (fun a b : Nat × Student => a.1 ≤ b.1) m).map Prod.snd

/-- The list returned on a 2xx response. -/
def uniqueStudentsOf (subs : List Submission) : List Student :=
  jsObjectValues (collectUnique subs)

/-- `GetSubmittedStudents`: try/catch around the fetch, deduplication on
a 2xx response, `{detail, status}` on a non-2xx response. -/
def GetSubmittedStudents (r : FetchOutcome (PagedBody Submission)) :
    ControllerOutcome (List Student) :=
  match r with
  | .raise => .msgErr "Something went wrong fetching submitted students."
  | .ok resp =>
    if resp.ok then .success (uniqueStudentsOf resp.data.results)
    else .detailErr (resp.detail.getD "Failed to fetch students from submissions.")
      resp.status

/-- The student of the first submission whose `student` is present and
has id `i`. -/
def firstStudentWith (subs : List Submission) (i : Nat) : Option Student :=
  match subs with
  | [] => none
  | sub :: rest =>
    match sub.student with
    | some s => if s.id = i then some s else firstStudentWith rest i
    | none => firstStudentWith rest i

theorem jsIndex_append_left {m : List (Nat × Student)}
    (m' : List (Nat × Student)) {k : Nat} {v : Student}
    (h : jsIndex m k = some v) : jsIndex (m ++ m') k = some v := by
  induction m with
  | nil => simp [jsIndex] at h
  | cons p rest ih =>
    rcases p with ⟨k', v'⟩
    by_cases hk : k = k' <;> simp [jsIndex, hk] at h ⊢ <;> simp_all [ih]

theorem jsIndex_append_none {m : List (Nat × Student)}
    (m' : List (Nat × Student)) {k : Nat} (h : jsIndex m k = none) :
    jsIndex (m ++ m') k = jsIndex m' k := by
  induction m with
  | nil => simp
  | cons p rest ih =>
    rcases p with ⟨k', v'⟩
    by_cases hk : k = k' <;> simp [jsIndex, hk] at h ⊢ <;> simp_all [ih]

theorem collectStep_none {m : List (Nat × Student)} {sub : Submission}
    (hs : sub.student = none) : collectStep m sub = m := by
  simp [collectStep, hs]

theorem collectStep_some {m : List (Nat × Student)} {sub : Submission}
    {s : Student} (hs : sub.student = some s) :
    collectStep m sub = insertUnique m s := by
  simp [collectStep, hs]

/-- A key the object already maps is never overwritten by the loop. -/
theorem foldl_collectStep_keep (subs : List Submission)
    (m : List (Nat × Student)) (i : Nat) (v : Student)
    (h : jsIndex m i = some v) :
    jsIndex (subs.foldl collectStep m) i = some v := by
  induction subs generalizing m with
  | nil => simpa using h
  | cons sub rest ih =>
    rw [List.foldl_cons]
    refine ih _ ?_
    rcases hs : sub.student with _ | s
    · rw [collectStep_none hs]; exact h
    · rw [collectStep_some hs]
      by_cases hsome : (jsIndex m s.id).isSome = true
      · simpa [insertUnique, hsome] using h
      · rw [insertUnique, if_neg hsome]
        exact jsIndex_append_left _ h

/-- A key the object does not map yet ends up at the student of the
first submission carrying it. -/
theorem foldl_collectStep_new (subs : List Submission)
    (m : List (Nat × Student)) (i : Nat) (h : jsIndex m i = none) :
    jsIndex (subs.foldl collectStep m) i = firstStudentWith subs i := by
  induction subs generalizing m with
  | nil => simpa [firstStudentWith] using h
  | cons sub rest ih =>
    rw [List.foldl_cons]
    rcases hs : sub.student with _ | s
    · rw [collectStep_none hs]
      simpa [firstStudentWith, hs] using ih m h
    · by_cases hid : s.id = i
      · subst hid
        have hins : collectStep m sub = m ++ [(s.id, s)] := by
          rw [collectStep_some hs]
          simp [insertUnique, h]
        rw [hins]
        have hfound : jsIndex (m ++ [(s.id, s)]) s.id = some s := by
          rw [jsIndex_append_none _ h]; simp [jsIndex]
        rw [foldl_collectStep_keep rest _ _ _ hfound]
        simp [firstStudentWith, hs]
      · have hnone : jsIndex (collectStep m sub) i = none := by
          rw [collectStep_some hs]
          by_cases hsome : (jsIndex m s.id).isSome = true
          · simpa [insertUnique, hsome] using h
          · rw [insertUnique, if_neg hsome, jsIndex_append_none _ h]
            simp [jsIndex, Ne.symm hid]
        rw [ih _ hnone]
        simp [firstStudentWith, hs, hid]

/-- Every entry of the object maps an id to a student with that id. -/
theorem foldl_collectStep_ids (subs : List Submission)
    (m : List (Nat × Student))
    (h : ∀ p ∈ m, (p : Nat × Student).2.id = p.1) :
    ∀ p ∈ subs.foldl collectStep m, (p : Nat × Student).2.id = p.1 := by
  induction subs generalizing m with
  | nil => simpa using h
  | cons sub rest ih =>
    rw [List.foldl_cons]
    refine ih _ ?_
    intro p hp
    rcases hs : sub.student with _ | s
    · rw [collectStep_none hs] at hp
      exact h p hp
    · rw [collectStep_some hs] at hp
      by_cases hsome : (jsIndex m s.id).isSome = true
      · rw [insertUnique, if_pos hsome] at hp
        exact h p hp
      · rw [insertUnique, if_neg hsome] at hp
        rcases List.mem_append.mp hp with hp | hp
        · exact h p hp
        · simp at hp
          simp [hp]

/-- `k` is absent from the object exactly when `jsIndex` misses. -/
theorem jsIndex_eq_none_iff (m : List (Nat × Student)) (k : Nat) :
    jsIndex m k = none ↔ k ∉ m.map Prod.fst := by
  induction m with
  | nil => simp [jsIndex]
  | cons p rest ih =>
    rcases p with ⟨k', v'⟩
    by_cases hk : k = k' <;> simp [jsIndex, hk, ih]

/-- The loop keeps the object's keys distinct. -/
theorem foldl_collectStep_nodup (subs : List Submission)
    (m : List (Nat × Student)) (h : (m.map Prod.fst).Nodup) :
    ((subs.foldl collectStep m).map Prod.fst).Nodup := by
  induction subs generalizing m with
  | nil => simpa using h
  | cons sub rest ih =>
    rw [List.foldl_cons]
    refine ih _ ?_
    rcases hs : sub.student with _ | s
    · rw [collectStep_none hs]; exact h
    · rw [collectStep_some hs]
      by_cases hsome : (jsIndex m s.id).isSome = true
      · simpa [insertUnique, hsome] using h
      · have habsent : s.id ∉ m.map Prod.fst := by
          rw [← jsIndex_eq_none_iff]
          exact Option.not_isSome_iff_eq_none.mp hsome
        rw [insertUnique, if_neg hsome, List.map_append]
        refine h.append (by simp) ?_
        intro a ha hb
        simp at hb
        exact habsent (hb ▸ ha)

/-- On distinct keys, membership in the object coincides with `jsIndex`. -/
theorem mem_iff_jsIndex {m : List (Nat × Student)}
    (h : (m.map Prod.fst).Nodup) (k : Nat) (v : Student) :
    (k, v) ∈ m ↔ jsIndex m k = some v := by
  induction m with
  | nil => simp [jsIndex]
  | cons p rest ih =>
    rcases p with ⟨k', v'⟩
    simp only [List.map_cons, List.nodup_cons] at h
    by_cases hk : k = k'
    · subst hk
      simp only [jsIndex, if_pos rfl, List.mem_cons]
      constructor
      · rintro (hp | hp)
        · simp [Prod.ext_iff] at hp; simp [hp]
        · exact absurd (List.mem_map_of_mem Prod.fst hp) h.1
      · intro hv
        simp at hv
        simp [hv]
    · simp only [jsIndex, if_neg hk, List.mem_cons]
      rw [← ih h.2]
      constructor
      · rintro (hp | hp)
        · simp [Prod.ext_iff] at hp
          exact absurd hp.1 hk
        · exact hp
      · exact Or.inr

/-- C9: on a 2xx response, `GetSubmittedStudents` succeeds with a list
in which each student id occurs at most once, and a student object
belongs to the list exactly when it is the student of the first
submission (in the submissions' order) whose `student` field is present
and carries that id — so later duplicates and submissions without a
student are dropped. -/
theorem c9_getSubmittedStudents_dedup (subs : List Submission)
    (status cnt : Nat) (detail : Option String) :
    GetSubmittedStudents (.ok ⟨true, status, detail, ⟨subs, cnt⟩⟩) =
      .success (uniqueStudentsOf subs) ∧
    ((uniqueStudentsOf subs).map Student.id).Nodup ∧
    ∀ s : Student,
      s ∈ uniqueStudentsOf subs ↔ firstStudentWith subs s.id = some s := by
  have hids : ∀ p ∈ collectUnique subs, (p : Nat × Student).2.id = p.1 :=
    foldl_collectStep_ids subs [] (by simp)
  have hnodup : ((collectUnique subs).map Prod.fst).Nodup :=
    foldl_collectStep_nodup subs [] (by simp)
  have hlookup : ∀ i, jsIndex (collectUnique subs) i = firstStudentWith subs i :=
    fun i => foldl_collectStep_new subs [] i rfl
  have hperm :
      List.Perm
        (List.insertionSort (fun a b : Nat × Student => a.1 ≤ b.1)
          (collectUnique subs))
        (collectUnique subs) :=
    List.perm_insertionSort _ _
  have hids' : ∀ p ∈ List.insertionSort (fun a b : Nat × Student => a.1 ≤ b.1)
      (collectUnique subs), (p : Nat × Student).2.id = p.1 :=
    fun p hp => hids p (hperm.mem_iff.mp hp)
  refine ⟨rfl, ?_, ?_⟩
  · have hmap : (uniqueStudentsOf subs).map Student.id =
        (List.insertionSort (fun a b : Nat × Student => a.1 ≤ b.1)
          (collectUnique subs)).map Prod.fst := by
      rw [uniqueStudentsOf, jsObjectValues, List.map_map]
      exact List.map_congr_left hids'
    rw [hmap]
    exact ((hperm.map Prod.fst).symm).nodup hnodup
  · intro s
    rw [← hlookup s.id, ← mem_iff_jsIndex hnodup]
    rw [uniqueStudentsOf, jsObjectValues]
    constructor
    · intro hmem
      rcases List.mem_map.mp hmem with ⟨p, hp, hps⟩
      have hid := hids' p hp
      have hps' : p = (s.id, s) := by
        rcases p with ⟨k, v⟩
        cases hps
        simp at hid
        simp [hid.symm]
      rw [hps'] at hp
      exact hperm.mem_iff.mp hp
    · intro hmem
      exact List.mem_map.mpr ⟨(s.id, s), hperm.mem_iff.mpr hmem, rfl⟩

end Prism
